import Mathlib

/-!
Verification of the secure-transfer gateway: file risk classification
(`server/utils/fileValidation.js`, reproduced in the repository's test guide),
the upload decision pipeline (`server/routes/api.js`), and the handshake
accept-once discipline.  Byte buffers are modelled as `List ℕ`, JavaScript
numbers as `ℝ` (with exact real arithmetic standing in for IEEE doubles),
and the external anomaly oracle and format parsers (sharp, pdf-parse,
adm-zip) as explicit parameters.
-/

set_option maxHeartbeats 1000000

/-- Outcome of `sharp(buffer).metadata()`: either metadata with (possibly zero,
i.e. falsy) dimensions, or a thrown parse error. -/
inductive SharpResult where
  | meta (width height : Nat)
  | err (msg : String)
deriving DecidableEq

/-- Outcome of `pdfParse(buffer)`: page count (0 = falsy `numpages`) or a throw. -/
inductive PdfResult where
  | parsed (numpages : Nat)
  | err (msg : String)
deriving DecidableEq

/-- Outcome of `new AdmZip(buffer)`: entry count plus whether the first entry's
`getData()` succeeds, or a constructor throw. -/
inductive ZipResult where
  | entries (n : Nat) (firstReadable : Bool)
  | err (msg : String)
deriving DecidableEq

/-- The three external format parsers consulted by `checkFileStructure`. -/
structure ExtParsers where
  sharp : SharpResult
  pdf : PdfResult
  zip : ZipResult
deriving DecidableEq

/-- `FILE_SIGNATURES` magic-byte table, in JavaScript object insertion order
(`Object.entries` iterates string keys in insertion order). `none` stands for
the `text/plain: null` entry. -/
def FILE_SIGNATURES : List (String × Option (List Nat)) :=
  [("image/jpeg", some [0xFF, 0xD8, 0xFF]),
   ("image/png", some [0x89, 0x50, 0x4E, 0x47, 0x0D, 0x0A, 0x1A, 0x0A]),
   ("image/gif", some [0x47, 0x49, 0x46, 0x38]),
   ("image/webp", some [0x52, 0x49, 0x46, 0x46]),
   ("application/pdf", some [0x25, 0x50, 0x44, 0x46]),
   ("application/msword", some [0xD0, 0xCF, 0x11, 0xE0]),
   ("application/vnd.openxmlformats-officedocument.wordprocessingml.document",
     some [0x50, 0x4B, 0x03, 0x04]),
   ("application/zip", some [0x50, 0x4B, 0x03, 0x04]),
   ("application/x-rar-compressed", some [0x52, 0x61, 0x72, 0x21]),
   ("application/x-7z-compressed", some [0x37, 0x7A, 0xBC, 0xAF, 0x27, 0x1C]),
   ("application/x-msdownload", some [0x4D, 0x5A]),
   ("application/x-executable", some [0x7F, 0x45, 0x4C, 0x46]),
   ("text/plain", none)]

/-- The inner loop of `detectFileType`: the buffer is long enough and agrees
with the signature on every signature byte. -/
def signatureMatches (buffer signature : List Nat) : Bool :=
  decide (signature.length ≤ buffer.length) && buffer.take signature.length == signature

/-- `detectFileType(buffer)`: first matching magic-byte entry, `null` for an
empty buffer, generic `application/octet-stream` when nothing matches. -/
def detectFileType (buffer : List Nat) : Option String :=
  if buffer.length = 0 then none
  else
    match FILE_SIGNATURES.find? (fun e =>
      match e.2 with
      | none => false
      | some s => signatureMatches buffer s) with
    | some e => some e.1
    | none => some "application/octet-stream"

/-- `calculateShannonEntropy(buffer)`: Shannon entropy of the byte-frequency
distribution, `entropy = -Σ p·log2 p` over the distinct bytes of the buffer
(the JavaScript iterates over a `Map` of counts; `dedup` enumerates the same
distinct values). -/
noncomputable def calculateShannonEntropy (buffer : List Nat) : ℝ :=
  if buffer.length = 0 then 0
  else
    -((buffer.dedup.map (fun v =>
      ((buffer.count v : ℝ) / (buffer.length : ℝ)) *
        Real.logb 2 ((buffer.count v : ℝ) / (buffer.length : ℝ)))).sum)

/-- The entropy-band chain at the heart of `classifyFileCriticality`,
factored out over the entropy value: returns the level together with the
pushed reason string. -/
noncomputable def entropyCriticality (entropy : ℝ) : Nat × String :=
  if entropy = 0 then (4, "Empty or fully corrupted file")
  else if entropy < 4.5 then (3, "Very low entropy - truncated or broken file structure")
  else if 4.5 ≤ entropy ∧ entropy < 7.2 then (0, "Normal entropy - likely safe")
  else if 7.2 ≤ entropy ∧ entropy < 7.9 then (2, "High entropy - encrypted/compressed/suspicious")
  else if 7.9 ≤ entropy then (4, "Extremely high entropy - malware-like randomness")
  else (1, "Unexpected entropy pattern")

/-- Result record of `classifyFileCriticality`. -/
structure Criticality where
  level : Nat
  riskScore : ℝ
  reasons : List String
  entropy : ℝ
  detectedType : Option String

/-- `classifyFileCriticality(buffer, filename, originalMimeType)`: entropy-band
criticality level; `riskScore` is the level itself ("Use level itself as a
simple riskScore proxy"); filename and MIME type are accepted but unused. -/
noncomputable def classifyFileCriticality (buffer : List Nat)
    (_filename : String) (_originalMimeType : String) : Criticality :=
  let detectedType := detectFileType buffer
  let entropy := calculateShannonEntropy buffer
  let lr := entropyCriticality entropy
  { level := lr.1, riskScore := (lr.1 : ℝ), reasons := [lr.2],
    entropy := entropy, detectedType := detectedType }

/-- Case-insensitive test for the `/\.(txt|log|json|xml|html|css|js)$/i`
filename pattern of `detectCorruption`. -/
def isTextExtension (filename : String) : Bool :=
  [".txt", ".log", ".json", ".xml", ".html", ".css", ".js"].any
    (fun e => e.data.isSuffixOf (filename.data.map Char.toLower))

/-- One step state of the repeated-pattern scan: (already returned true,
current `matches`, current `totalChecked`). -/
def repeatedStep (buffer : List Nat) (patternLen : Nat)
    (st : Bool × Nat × Nat) (i : Nat) : Bool × Nat × Nat :=
  if st.1 then st
  else
    let total := st.2.2 + 1
    if (buffer.drop i).take patternLen == buffer.take patternLen then
      let matchCount := st.2.1 + 1
      if 3 < matchCount ∧ total < 2 * matchCount then (true, matchCount, total)
      else (false, matchCount, total)
    else
      if 5 < st.2.1 then (true, st.2.1, total)
      else (false, 0, total)

/-- Chunk start indices of the inner loop of `checkRepeatedPattern`:
`i = patternLen, 2·patternLen, …` while `i < buffer.length - patternLen`. -/
def scanIndices (len patternLen : Nat) : List Nat :=
  ((List.range len).map (fun k => (k + 1) * patternLen)).filter
    (fun i => i + patternLen < len)

/-- `checkRepeatedPattern(buffer)`: short-cycle repeated pattern over the
sample, or a single byte value covering more than 70% of the buffer.
Rational threshold comparisons `m/t > 0.5`, `m/t > 0.4`, `c/n > 0.7` are
encoded as the equivalent integer comparisons. -/
def checkRepeatedPattern (buffer : List Nat) : Bool :=
  if buffer.length < 8 then false
  else
    let perPattern := [1, 2, 3, 4].any (fun patternLen =>
      if buffer.length < patternLen * 3 then false
      else
        let st := (scanIndices buffer.length patternLen).foldl
          (repeatedStep buffer patternLen) (false, 0, 0)
        st.1 || (decide (10 < st.2.1) && decide (0 < st.2.2) &&
                 decide (2 * st.2.2 < 5 * st.2.1)))
    if perPattern then true
    else if 20 < buffer.length then
      decide (7 * buffer.length < 10 * buffer.count buffer.headI)
    else false

/-- Feature record produced by the entropy analyzer. -/
structure EntropyFeatures where
  entropy : ℝ
  entropy_variance : ℝ
  entropy_frac : ℝ

/-- Fixed-size windows of a buffer (for windowed entropy variance). -/
def windowsOf (n : Nat) (l : List Nat) : List (List Nat) :=
  (List.range ((l.length + n - 1) / n)).map (fun k => (l.drop (k * n)).take n)

/-- Modelled from the spec: `server/utils/entropy.js` (`getEntropyFeatures`)
is not among the provided sources.  Per the spec's EntropyAnalyzer it
"computes Shannon entropy and windowed entropy variance over a byte buffer";
we model `entropy` as whole-buffer Shannon entropy, `entropy_variance` as the
variance of Shannon entropies over fixed 256-byte windows, and the
`entropy_ratio` field (here `entropy_frac`) as entropy normalised to the
8-bit maximum. -/
noncomputable def getEntropyFeatures (buffer : List Nat) : EntropyFeatures :=
  let es := (windowsOf 256 buffer).map calculateShannonEntropy
  let mean := es.sum / (es.length : ℝ)
  { entropy := calculateShannonEntropy buffer
    entropy_variance := ((es.map (fun e => (e - mean) ^ 2)).sum) / (es.length : ℝ)
    entropy_frac := calculateShannonEntropy buffer / 8 }

/-- Result record of `detectCorruption`. -/
structure CorruptionCheck where
  isCorrupted : Bool
  issues : List String
  entropy : ℝ
  detectedType : Option String

/-- `detectCorruption(buffer, filename)`: null bytes in text files, repeated
patterns, excessive null bytes, and entropy-based heuristics.  The JavaScript
interpolates numeric values into some issue strings; the model uses the fixed
message prefixes. -/
noncomputable def detectCorruption (buffer : List Nat) (filename : Option String) :
    CorruptionCheck :=
  let issues1 : List String :=
    match filename with
    | some fn =>
      if isTextExtension fn && buffer.any (· == 0) && decide (buffer.length < 10000)
      then ["Contains null bytes (possible corruption)"] else []
    | none => []
  let issues2 : List String :=
    if 20 < buffer.length then
      if checkRepeatedPattern (buffer.take (min 1000 buffer.length))
      then ["Suspicious repeated pattern detected (possible corruption or padding)"] else []
    else []
  let issues2b : List String :=
    if 50 < buffer.length ∧ buffer.length < 5 * buffer.count 0
    then ["High concentration of null bytes - possible corruption"] else []
  let ef := getEntropyFeatures buffer
  let issues3a : List String :=
    if ef.entropy > 7.8 ∧ 512 < buffer.length
    then ["Extremely high entropy - possible encryption or corruption"] else []
  let nonTextType : Bool :=
    match detectFileType buffer with
    | some dt => !("text/".data.isPrefixOf dt.data) && dt != "application/octet-stream"
    | none => false
  let issues3b : List String :=
    if ef.entropy < 2.5 ∧ 500 < buffer.length ∧ nonTextType
    then ["Unusually low entropy for detected type"] else []
  let issues3c : List String :=
    if ef.entropy_variance > 2.0 ∧ 1000 < buffer.length
    then ["High entropy variance - possible corruption"] else []
  let issues := issues1 ++ issues2 ++ issues2b ++ issues3a ++ issues3b ++ issues3c
  { isCorrupted := decide (0 < issues.length), issues := issues,
    entropy := ef.entropy, detectedType := detectFileType buffer }

/-- `validateImage(buffer, detectedType)` with the `sharp` outcome supplied
as a parameter. -/
def validateImage (buffer : List Nat) (detectedType : String)
    (sharp : SharpResult) : List String :=
  (if detectedType == "image/jpeg" || detectedType == "image/jpg" then
    (if 10 < buffer.length ∧
        ¬(buffer.getD (buffer.length - 2) 0 = 0xFF ∧
          buffer.getD (buffer.length - 1) 0 = 0xD9)
     then ["JPEG file appears truncated (missing end marker)"] else [])
    ++ (match sharp with
        | .meta w h => if w = 0 ∨ h = 0 then ["JPEG has invalid dimensions"] else []
        | .err m => ["JPEG parse error: " ++ m])
   else []) ++
  (if detectedType == "image/png" then
    (if 8 < buffer.length ∧
        buffer.drop (buffer.length - 8) ≠ [0x49, 0x45, 0x4E, 0x44, 0xAE, 0x42, 0x60, 0x82] ∧
        buffer.take 8 = [0x89, 0x50, 0x4E, 0x47, 0x0D, 0x0A, 0x1A, 0x0A]
     then ["PNG file may be truncated or corrupted"] else [])
    ++ (match sharp with
        | .meta w h => if w = 0 ∨ h = 0 then ["PNG has invalid dimensions"] else []
        | .err m => ["PNG parse error: " ++ m])
   else []) ++
  (if detectedType == "image/gif" then
    (match sharp with
     | .meta w h => if w = 0 ∨ h = 0 then ["GIF has invalid dimensions"] else []
     | .err m => ["GIF parse error: " ++ m])
   else [])

/-- `validatePDF(buffer)` with the `pdf-parse` outcome supplied as a parameter. -/
def validatePDF (pdf : PdfResult) : List String :=
  match pdf with
  | .parsed n => if n = 0 then ["PDF has no pages or invalid structure"] else []
  | .err m => ["PDF parse error: " ++ m]

/-- `validateZIP(buffer)` with the `adm-zip` outcome supplied as a parameter. -/
def validateZIP (zip : ZipResult) : List String :=
  match zip with
  | .entries n firstReadable =>
    (if n = 0 then ["ZIP file is empty"] else []) ++
    (if 0 < n ∧ firstReadable = false then ["ZIP entry read error"] else [])
  | .err m => ["ZIP parse error: " ++ m]

/-- `filename.split('.').pop()`, lower-cased: the suffix after the last dot,
or the whole name when there is no dot. -/
def lastExtension (s : String) : List Char :=
  let cs := s.data.map Char.toLower
  if cs.contains '.' then (cs.reverse.takeWhile (fun c => c ≠ '.')).reverse
  else cs

/-- The `typeMismatches` extension-to-expected-type table of
`checkFileStructure`. -/
def typeMismatches : List (List Char × String) :=
  [("jpg".data, "image/jpeg"), ("jpeg".data, "image/jpeg"),
   ("png".data, "image/png"), ("gif".data, "image/gif"),
   ("pdf".data, "application/pdf"), ("zip".data, "application/zip"),
   ("exe".data, "application/x-msdownload"), ("dll".data, "application/x-msdownload")]

/-- `checkFileStructure(buffer, filename)`: extension-vs-detected-type
mismatch plus format-specific validation dispatched on the detected type.
The source guard `if (!filename) return issues` is a JavaScript truthiness
test: a missing filename AND the empty string both skip every check. -/
def checkFileStructure (buffer : List Nat) (filename : Option String)
    (ext : ExtParsers) : List String :=
  match filename with
  | none => []
  | some fn =>
    if fn = "" then []
    else
    let detectedType := detectFileType buffer
    let extension := lastExtension fn
    let mismatch : List String :=
      match detectedType with
      | some dt =>
        if extension ≠ [] then
          match typeMismatches.find? (fun p => p.1 == extension) with
          | some p =>
            if dt ≠ p.2 ∧ dt ≠ "application/octet-stream"
            then ["File extension does not match detected type"] else []
          | none => []
        else []
      | none => []
    let imageIssues : List String :=
      match detectedType with
      | some dt => if "image/".data.isPrefixOf dt.data then validateImage buffer dt ext.sharp else []
      | none => []
    let pdfIssues : List String :=
      if detectedType = some "application/pdf" then validatePDF ext.pdf else []
    let zipIssues : List String :=
      if detectedType = some "application/zip" then validateZIP ext.zip else []
    mismatch ++ imageIssues ++ pdfIssues ++ zipIssues

/-- Result record of `validateFile`.  `criticalityLevel` is `none` on the
empty-buffer early return (the JavaScript object gains the field only later). -/
structure FileValidation where
  isValid : Bool
  isCorrupted : Bool
  isSuspicious : Bool
  riskScore : ℝ
  issues : List String
  detectedType : Option String
  entropy : ℝ
  recommendations : List String
  criticalityLevel : Option Nat

/-- `validateFile(buffer, filename, originalMimeType)`: corruption checks,
structural checks, entropy-band criticality, and the mapping of the level
into `isCorrupted` / `isSuspicious` / `isValid`. -/
noncomputable def validateFile (buffer : List Nat) (filename : Option String)
    (originalMimeType : String) (ext : ExtParsers) : FileValidation :=
  if buffer.length = 0 then
    { isValid := false, isCorrupted := false, isSuspicious := false,
      riskScore := 0, issues := ["File is empty"], detectedType := none,
      entropy := 0, recommendations := [], criticalityLevel := none }
  else
    let corruption := detectCorruption buffer filename
    let structureIssues := checkFileStructure buffer filename ext
    let criticality := classifyFileCriticality buffer (filename.getD "") originalMimeType
    { isValid := ¬2 ≤ criticality.level,
      isCorrupted := corruption.isCorrupted || decide (0 < structureIssues.length) ||
                     decide (2 ≤ criticality.level),
      isSuspicious := decide (2 ≤ criticality.level) || criticality.level == 1,
      riskScore := criticality.riskScore,
      issues := corruption.issues ++ structureIssues ++
                (if criticality.reasons.length ≠ 0 then criticality.reasons else []),
      detectedType := detectFileType buffer,
      entropy := criticality.entropy,
      recommendations :=
        if 2 ≤ criticality.level then
          ["File should be rejected due to high criticality level"]
        else if criticality.level = 1 then
          ["File has minor anomalies - treat with caution"]
        else [],
      criticalityLevel := some criticality.level }

/-- Oracle / IDS analysis result: `{anomaly_score, verdict}` plus the `error`
marker the handler attaches on oracle failure. -/
structure IdsResult where
  anomaly_score : ℝ
  verdict : String
  error : Option String

/-- The uploaded file as the handler sees it (`req.file` under multer memory
storage; `size` equals the buffer length). -/
structure FileIn where
  buffer : List Nat
  originalname : String
  mimetype : String

/-- An `Alert.create` record, keeping the decision-relevant fields.  `entropy`
and `ids` are `Option`s because the two rejection paths build different
`details` objects: the criticality-gate alert carries `entropy` but no oracle
result, the fusion-gate alert carries the oracle result but no `entropy`. -/
structure AlertRecord where
  severity : String
  threat_type : String
  confidence : ℝ
  ml_score : ℝ
  filename : String
  file_size : Nat
  issues : List String
  detected_type : Option String
  entropy : Option ℝ
  ids : Option IdsResult
  blocked : Bool
  reason : String

/-- A `Transfer.create` record (persisted artifact). -/
structure TransferRecord where
  filename : String
  size : Nat
  status : String
  progress : Nat
  encryption_method : String
  entropy_features : EntropyFeatures
  ids_result : IdsResult

/-- The HTTP response of the upload handler. -/
inductive UploadResponse where
  | badRequest (msg : String)
  | blocked (status : String) (issues : List String) (ids : Option IdsResult)
  | ok (filename : String) (size : Nat) (ids : IdsResult)

/-- True exactly on the 403 "File upload blocked" responses. -/
def UploadResponse.isBlocked : UploadResponse → Bool
  | .blocked _ _ _ => true
  | _ => false

/-- True exactly on the 200 success response. -/
def UploadResponse.isOk : UploadResponse → Bool
  | .ok _ _ _ => true
  | _ => false

/-- True exactly on the 400 input-validation responses. -/
def UploadResponse.isBadRequest : UploadResponse → Bool
  | .badRequest _ => true
  | _ => false

/-- Response plus the side effects (alert records created, transfer records
persisted) of one call to the upload handler. -/
structure UploadOutcome where
  response : UploadResponse
  alerts : List AlertRecord
  transfers : List TransferRecord

/-- The `try { idsResult = await callIDS(...) ... } catch { ... }` block of the
upload handler: combines the oracle reply (`some r`) or failure (`none`) with
the validation risk score. -/
noncomputable def fuseIds (fv : FileValidation) (oracle : Option IdsResult) : IdsResult :=
  match oracle with
  | some r =>
    if fv.riskScore > 0.3 then
      let s := max r.anomaly_score fv.riskScore
      { anomaly_score := s,
        verdict := if s > 0.5 then "suspicious" else r.verdict,
        error := r.error }
    else r
  | none =>
    if fv.riskScore > 0.3 then
      { anomaly_score := fv.riskScore, verdict := "suspicious",
        error := some "IDS service unavailable but file validation detected issues" }
    else
      { anomaly_score := 0.8, verdict := "suspicious",
        error := some "IDS service unavailable" }

/-- The alert created on the criticality-gate rejection (level ≥ 2): carries
`entropy` in its details, no oracle result. -/
noncomputable def criticalityAlert (f : FileIn) (fv : FileValidation) : AlertRecord :=
  { severity := if fv.riskScore > 0.7 then "critical" else "high",
    threat_type := if fv.isCorrupted then "CorruptedFile" else "SuspiciousFile",
    confidence := min fv.riskScore 1,
    ml_score := min fv.riskScore 1,
    filename := f.originalname,
    file_size := f.buffer.length,
    issues := fv.issues,
    detected_type := fv.detectedType,
    entropy := some fv.entropy,
    ids := none,
    blocked := true,
    reason := if fv.isCorrupted then "File appears corrupted"
              else "File has suspicious characteristics" }

/-- The alert created on the fusion-gate rejection: carries the oracle result
in its details, no `entropy` field. -/
noncomputable def fusionAlert (f : FileIn) (fv : FileValidation)
    (idsResult : IdsResult) : AlertRecord :=
  { severity := "high",
    threat_type := if fv.isCorrupted then "CorruptedFile" else "SuspiciousFile",
    confidence := max idsResult.anomaly_score fv.riskScore,
    ml_score := max idsResult.anomaly_score fv.riskScore,
    filename := f.originalname,
    file_size := f.buffer.length,
    issues := fv.issues,
    detected_type := fv.detectedType,
    entropy := none,
    ids := some idsResult,
    blocked := true,
    reason := if fv.isCorrupted then "File appears corrupted"
              else "File flagged as suspicious by IDS and validation" }

/-- `uploadHandler(req, res)` of `server/routes/api.js`, with the oracle reply
and the external format parsers as parameters.  Returns the response together
with the created alert and transfer records. -/
noncomputable def uploadHandler (file : Option FileIn) (oracle : Option IdsResult)
    (ext : ExtParsers) : UploadOutcome :=
  match file with
  | none => ⟨.badRequest "No file provided", [], []⟩
  | some f =>
    if f.buffer.length = 0 then
      ⟨.badRequest "File is empty or invalid", [], []⟩
    else if 100 * 1024 * 1024 < f.buffer.length then
      ⟨.badRequest "File size exceeds 100MB limit", [], []⟩
    else
      let fv := validateFile f.buffer (some f.originalname) f.mimetype ext
      let criticalityLevel := fv.criticalityLevel.getD 0
      if 2 ≤ criticalityLevel then
        ⟨.blocked "corrupted" fv.issues none, [criticalityAlert f fv], []⟩
      else
        let entropyFeatures := getEntropyFeatures f.buffer
        let idsResult := fuseIds fv oracle
        if idsResult.verdict == "suspicious" || fv.isCorrupted ||
           decide (fv.riskScore > 0.5) then
          ⟨.blocked (if fv.isCorrupted then "corrupted" else "suspicious")
             fv.issues (some idsResult),
           [fusionAlert f fv idsResult], []⟩
        else
          ⟨.ok f.originalname f.buffer.length idsResult, [],
           [{ filename := f.originalname, size := f.buffer.length,
              status := "completed", progress := 100,
              encryption_method := "AES-GCM",
              entropy_features := entropyFeatures,
              ids_result := idsResult }]⟩

/-- Handshake session states. -/
inductive HState where
  | INIT
  | PENDING
  | VALIDATED
  | FAILED
  | EXPIRED
deriving DecidableEq

/-- Handshake protocol errors. -/
inductive HandshakeError where
  | InvalidKeyMaterial
  | SessionNotFound
  | SessionExpired
  | InvalidSessionState
deriving DecidableEq

/-- Result of one `validate` call: the released session key on ACCEPT, a
"suspicious" status (no key) on fusion REJECT, or a protocol error. -/
inductive HValidateResult where
  | accepted (sessionKey : Nat)
  | suspicious
  | failed (e : HandshakeError)
deriving DecidableEq

/-- A handshake session record (key material abstracted to naturals). -/
structure HandshakeSession where
  state : HState
  clientPublicKey : Nat
  serverPrivateKey : Nat
  derivedSessionKey : Option Nat
deriving DecidableEq

/-- Modelled from the spec: the server's key-derivation function
(`server/Handshakes/validateHandshake.js`) is not among the provided sources.
The spec only requires a deterministic derivation from the server-private and
client-public key material; any injective-enough placeholder serves the
accept-once property. -/
def deriveSessionKey (serverPriv clientPub : Nat) : Nat :=
  2 ^ serverPriv * 3 ^ clientPub

/-- Modelled from the spec: `server/Handshakes/validateHandshake.js` is not
among the provided sources.  Per spec §4.1, `validate` requires state PENDING
(else `InvalidSessionState`), then derives the session key and runs the
fusion decision: REJECT transitions to FAILED and erases key material
without releasing a key; ACCEPT transitions to VALIDATED and releases the
derived session key.  `fusionReject` stands for the oracle-fed fusion
outcome. -/
def validateHandshake (s : HandshakeSession) (fusionReject : Bool) :
    HandshakeSession × HValidateResult :=
  if s.state ≠ HState.PENDING then
    (s, .failed .InvalidSessionState)
  else if fusionReject then
    ({ s with state := .FAILED, derivedSessionKey := none }, .suspicious)
  else
    let k := deriveSessionKey s.serverPrivateKey s.clientPublicKey
    ({ s with state := .VALIDATED, derivedSessionKey := some k }, .accepted k)

/-! ### Entropy evaluation lemmas -/

/-- `logb 2` of a power of two. -/
lemma logb_two_val {x : ℝ} {k : ℕ} (h : x = 2 ^ k) : Real.logb 2 x = k := by
  rw [h, Real.logb_pow, Real.logb_self_eq_one (by norm_num), mul_one]

/-- Sum of a mapped list whose image is constant. -/
lemma list_sum_map_eq_mul {α : Type} (l : List α) (f : α → ℝ) (c : ℝ)
    (h : ∀ x ∈ l, f x = c) : (l.map f).sum = l.length * c := by
  induction l with
  | nil => simp
  | cons a t ih =>
    simp only [List.map_cons, List.sum_cons, List.length_cons]
    rw [h a (by simp), ih (fun x hx => h x (by simp [hx]))]
    push_cast
    ring

/-- Shannon entropy of a duplicate-free buffer is `log2` of its length. -/
lemma shannon_of_nodup (b : List Nat) (hb : b.length ≠ 0) (hn : b.Nodup) :
    calculateShannonEntropy b = Real.logb 2 (b.length : ℝ) := by
  have hL : (0 : ℝ) < (b.length : ℝ) := by positivity
  unfold calculateShannonEntropy
  rw [if_neg hb, List.dedup_eq_self.mpr hn,
    list_sum_map_eq_mul b _ ((1 / (b.length : ℝ)) * Real.logb 2 (1 / (b.length : ℝ)))
      (fun x hx => by rw [List.count_eq_one_of_mem hn hx]; norm_num)]
  rw [one_div, Real.logb_inv]
  field_simp

/-- The dedup of a nonempty constant list is the singleton. -/
lemma dedup_of_constant {a : Nat} :
    ∀ (b : List Nat), b ≠ [] → (∀ x ∈ b, x = a) → b.dedup = [a] := by
  intro b
  induction b with
  | nil => simp
  | cons y t ih =>
    intro _ h
    have hy : y = a := h y (by simp)
    subst hy
    cases t with
    | nil => simp
    | cons z t2 =>
      have ht : (z :: t2).dedup = [y] := ih (by simp) (fun x hx => h x (by simp [hx]))
      rw [List.dedup_cons_of_mem, ht]
      exact (List.mem_dedup).mp (by rw [ht]; simp)

/-- Entropy of a buffer all of whose bytes are equal is zero. -/
lemma shannon_of_constant (b : List Nat) (a : Nat) (hb : b ≠ [])
    (h : ∀ x ∈ b, x = a) : calculateShannonEntropy b = 0 := by
  have hlen : b.length ≠ 0 := by simpa [List.length_eq_zero] using hb
  have hded : b.dedup = [a] := dedup_of_constant b hb h
  have hcount : b.count a = b.length := by
    rw [List.count_eq_length]
    intro x hx
    exact (h x hx) ▸ (by simp)
  have hL : ((b.length : ℝ)) ≠ 0 := by positivity
  unfold calculateShannonEntropy
  rw [if_neg hlen, hded]
  simp [hcount, div_self hL]

/-- Entropy through the count profile of the buffer: once
`b.dedup.map b.count` is evaluated to a concrete list `cs`, the entropy is a
sum over `cs`. -/
lemma shannon_of_counts (b : List Nat) (cs : List Nat) (hlen : b.length ≠ 0)
    (h : b.dedup.map b.count = cs) :
    calculateShannonEntropy b =
      -((cs.map (fun (c : Nat) => ((c : ℝ) / (b.length : ℝ)) *
          Real.logb 2 ((c : ℝ) / (b.length : ℝ)))).sum) := by
  unfold calculateShannonEntropy
  rw [if_neg hlen, ← h, List.map_map]
  rfl

/-! ### Concrete test buffers -/

/-- A 32-byte buffer starting with the JPEG magic bytes `FF D8 FF` and not
ending in the `FF D9` end marker: a truncated JPEG.  Byte profile: value
`0xFF` twice, 30 further distinct values once each. -/
def bufJpegTrunc : List Nat := [0xFF, 0xD8, 0xFF] ++ (List.range 29).map (· + 1)

/-- A 39-byte buffer of 39 distinct printable bytes (no nulls, no magic-byte
prefix, no repeated patterns): a well-formed plain-text file body. -/
def bufText39 : List Nat := (List.range 39).map (· + 65)

/-- A 64-byte buffer with 16 bytes occurring once and 12 bytes occurring four
times: Shannon entropy exactly 4.5. -/
def bufPoint45 : List Nat :=
  List.range 16 ++ (List.range 12).map (· + 16) ++ (List.range 12).map (· + 16) ++
  (List.range 12).map (· + 16) ++ (List.range 12).map (· + 16)

lemma shannon_bufText39 : calculateShannonEntropy bufText39 = Real.logb 2 39 := by
  have h := shannon_of_nodup bufText39 (by decide)
    (List.Nodup.map (fun a b hab => by omega) (List.nodup_range 39))
  rw [h]
  norm_num [bufText39]

lemma shannon_range32 : calculateShannonEntropy (List.range 32) = 5 := by
  rw [shannon_of_nodup (List.range 32) (by decide) (List.nodup_range 32)]
  rw [show ((List.range 32).length : ℝ) = 2 ^ (5 : ℕ) by norm_num]
  rw [logb_two_val rfl]
  norm_num

lemma shannon_range160 : calculateShannonEntropy (List.range 160) = Real.logb 2 160 := by
  rw [shannon_of_nodup (List.range 160) (by simp) (List.nodup_range 160)]
  norm_num

lemma shannon_range240 : calculateShannonEntropy (List.range 240) = Real.logb 2 240 := by
  rw [shannon_of_nodup (List.range 240) (by simp) (List.nodup_range 240)]
  norm_num

lemma shannon_pair : calculateShannonEntropy [0, 1] = 1 := by
  rw [shannon_of_nodup [0, 1] (by decide) (by decide)]
  rw [show (([0, 1] : List Nat).length : ℝ) = 2 ^ (1 : ℕ) by norm_num]
  rw [logb_two_val rfl]
  norm_num

lemma logb_39_lower : (4.5 : ℝ) ≤ Real.logb 2 39 := by
  have h32 : Real.logb 2 (32 : ℝ) = 5 := by
    rw [logb_two_val (show (32:ℝ) = 2 ^ (5:ℕ) by norm_num)]; norm_num
  have := Real.logb_le_logb_of_le (show (1:ℝ) < 2 by norm_num)
    (show (0:ℝ) < 32 by norm_num) (show (32:ℝ) ≤ 39 by norm_num)
  rw [h32] at this
  linarith

lemma logb_39_upper : Real.logb 2 39 < (7.2 : ℝ) := by
  have h64 : Real.logb 2 (64 : ℝ) = 6 := by
    rw [logb_two_val (show (64:ℝ) = 2 ^ (6:ℕ) by norm_num)]; norm_num
  have := Real.logb_le_logb_of_le (show (1:ℝ) < 2 by norm_num)
    (show (0:ℝ) < 39 by norm_num) (show (39:ℝ) ≤ 64 by norm_num)
  rw [h64] at this
  linarith

lemma logb_160_lower : (7.2 : ℝ) ≤ Real.logb 2 160 := by
  have hp : Real.logb 2 ((160 : ℝ) ^ (5 : ℕ)) = 5 * Real.logb 2 160 := by
    rw [Real.logb_pow]; norm_num
  have h36 : Real.logb 2 ((2 : ℝ) ^ (36 : ℕ)) = 36 := by
    rw [logb_two_val rfl]; norm_num
  have hle := Real.logb_le_logb_of_le (show (1:ℝ) < 2 by norm_num)
    (show (0:ℝ) < 2 ^ (36:ℕ) by positivity)
    (show ((2:ℝ) ^ (36:ℕ)) ≤ (160:ℝ) ^ (5:ℕ) by norm_num)
  rw [h36, hp] at hle
  linarith

lemma logb_160_upper : Real.logb 2 160 < (7.9 : ℝ) := by
  have hp : Real.logb 2 ((160 : ℝ) ^ (10 : ℕ)) = 10 * Real.logb 2 160 := by
    rw [Real.logb_pow]; norm_num
  have h79 : Real.logb 2 ((2 : ℝ) ^ (79 : ℕ)) = 79 := by
    rw [logb_two_val rfl]; norm_num
  have hlt := Real.logb_lt_logb (show (1:ℝ) < 2 by norm_num)
    (show (0:ℝ) < (160:ℝ) ^ (10:ℕ) by positivity)
    (show ((160:ℝ) ^ (10:ℕ)) < (2:ℝ) ^ (79:ℕ) by norm_num)
  rw [h79, hp] at hlt
  linarith

lemma logb_240_lower : (7.9 : ℝ) ≤ Real.logb 2 240 := by
  have hp : Real.logb 2 ((240 : ℝ) ^ (10 : ℕ)) = 10 * Real.logb 2 240 := by
    rw [Real.logb_pow]; norm_num
  have h79 : Real.logb 2 ((2 : ℝ) ^ (79 : ℕ)) = 79 := by
    rw [logb_two_val rfl]; norm_num
  have hle := Real.logb_le_logb_of_le (show (1:ℝ) < 2 by norm_num)
    (show (0:ℝ) < 2 ^ (79:ℕ) by positivity)
    (show ((2:ℝ) ^ (79:ℕ)) ≤ (240:ℝ) ^ (10:ℕ) by norm_num)
  rw [h79, hp] at hle
  linarith

lemma shannon_bufJpegTrunc : calculateShannonEntropy bufJpegTrunc = 4.9375 := by
  have h := shannon_of_counts bufJpegTrunc ([1, 2] ++ List.replicate 29 1)
    (by decide) (by decide)
  have hlen : ((bufJpegTrunc.length : ℕ) : ℝ) = 32 := by
    rw [show bufJpegTrunc.length = 32 from by decide]; norm_num
  have l1 : Real.logb 2 ((1 : ℝ) / 32) = -5 := by
    rw [show (1:ℝ)/32 = ((2:ℝ) ^ (5:ℕ))⁻¹ by norm_num, Real.logb_inv, logb_two_val rfl]
    norm_num
  have l2 : Real.logb 2 ((2 : ℝ) / 32) = -4 := by
    rw [show (2:ℝ)/32 = ((2:ℝ) ^ (4:ℕ))⁻¹ by norm_num, Real.logb_inv, logb_two_val rfl]
    norm_num
  rw [h]
  simp only [List.map_append, List.map_cons, List.map_nil, List.map_replicate,
    List.sum_append, List.sum_cons, List.sum_nil, List.sum_replicate, hlen,
    Nat.cast_one, Nat.cast_ofNat, smul_eq_mul]
  rw [l1, l2]
  norm_num

lemma shannon_bufPoint45 : calculateShannonEntropy bufPoint45 = 4.5 := by
  have h := shannon_of_counts bufPoint45 (List.replicate 16 1 ++ List.replicate 12 4)
    (by decide) (by decide)
  have hlen : ((bufPoint45.length : ℕ) : ℝ) = 64 := by
    rw [show bufPoint45.length = 64 from by decide]; norm_num
  have l1 : Real.logb 2 ((1 : ℝ) / 64) = -6 := by
    rw [show (1:ℝ)/64 = ((2:ℝ) ^ (6:ℕ))⁻¹ by norm_num, Real.logb_inv, logb_two_val rfl]
    norm_num
  have l4 : Real.logb 2 ((4 : ℝ) / 64) = -4 := by
    rw [show (4:ℝ)/64 = ((2:ℝ) ^ (4:ℕ))⁻¹ by norm_num, Real.logb_inv, logb_two_val rfl]
    norm_num
  rw [h]
  simp only [List.map_append, List.map_replicate, List.sum_append,
    List.sum_replicate, hlen, Nat.cast_one, Nat.cast_ofNat, smul_eq_mul]
  rw [l1, l4]
  norm_num

/-! ### Entropy-band lemmas for the criticality chain -/

lemma entropyCriticality_zero : entropyCriticality 0 = (4, "Empty or fully corrupted file") := by
  unfold entropyCriticality
  rw [if_pos rfl]

lemma entropyCriticality_low {e : ℝ} (h0 : 0 < e) (h : e < 4.5) :
    entropyCriticality e = (3, "Very low entropy - truncated or broken file structure") := by
  unfold entropyCriticality
  rw [if_neg (by linarith), if_pos h]

lemma entropyCriticality_normal {e : ℝ} (h1 : 4.5 ≤ e) (h2 : e < 7.2) :
    entropyCriticality e = (0, "Normal entropy - likely safe") := by
  unfold entropyCriticality
  rw [if_neg (by linarith), if_neg (by linarith), if_pos ⟨h1, h2⟩]

lemma entropyCriticality_high {e : ℝ} (h1 : 7.2 ≤ e) (h2 : e < 7.9) :
    entropyCriticality e = (2, "High entropy - encrypted/compressed/suspicious") := by
  unfold entropyCriticality
  rw [if_neg (by linarith), if_neg (by linarith),
    if_neg (fun hc => by linarith [hc.2]), if_pos ⟨h1, h2⟩]

lemma entropyCriticality_extreme {e : ℝ} (h : 7.9 ≤ e) :
    entropyCriticality e = (4, "Extremely high entropy - malware-like randomness") := by
  unfold entropyCriticality
  rw [if_neg (by linarith), if_neg (by linarith),
    if_neg (fun hc => by linarith [hc.2]), if_neg (fun hc => by linarith [hc.2]),
    if_pos h]

/-- The five bands are exhaustive over the reals: the defensive
"unexpected entropy pattern" level 1 is unreachable. -/
lemma entropyCriticality_ne_one (e : ℝ) : (entropyCriticality e).1 ≠ 1 := by
  unfold entropyCriticality
  split_ifs with h1 h2 h3 h4 h5
  · simp
  · simp
  · simp
  · simp
  · simp
  · exfalso
    push_neg at h2 h5
    exact absurd (fun hc : 4.5 ≤ e ∧ e < 7.2 => h3 hc)
      (by
        intro _
        have h72 : 7.2 ≤ e := by
          by_contra hlt
          exact h3 ⟨h2, by linarith⟩
        have h79 : 7.9 ≤ e := by
          by_contra hlt
          exact h4 ⟨h72, by linarith⟩
        linarith)

/-! ### Evaluation lemmas for small buffers -/

/-- On buffers of at most 50 bytes, only the null-byte-in-text-file and
repeated-pattern checks of `detectCorruption` can fire; all length-gated
entropy heuristics are off. -/
lemma detectCorruption_eval (b : List Nat) (fn : String) (base : List String)
    (h50 : b.length ≤ 50)
    (hbase : ((if isTextExtension fn && b.any (· == 0) && decide (b.length < 10000)
               then ["Contains null bytes (possible corruption)"] else []) ++
              (if 20 < b.length then
                 (if checkRepeatedPattern (b.take (min 1000 b.length))
                  then ["Suspicious repeated pattern detected (possible corruption or padding)"]
                  else [])
               else [])) = base) :
    detectCorruption b (some fn) =
      { isCorrupted := decide (0 < base.length), issues := base,
        entropy := (getEntropyFeatures b).entropy,
        detectedType := detectFileType b } := by
  simp only [detectCorruption]
  rw [if_neg (fun hc : 50 < b.length ∧ _ => absurd hc.1 (by omega)),
    if_neg (fun hc : _ ∧ 512 < b.length => absurd hc.2 (by omega)),
    if_neg (fun hc : _ ∧ 500 < b.length ∧ _ => absurd hc.2.1 (by omega)),
    if_neg (fun hc : _ ∧ 1000 < b.length => absurd hc.2 (by omega))]
  rw [List.append_nil, List.append_nil, List.append_nil, List.append_nil, hbase]

/-- Abbreviation used throughout: the entropy-band level of a buffer. -/
noncomputable def bufferLevel (b : List Nat) : Nat :=
  (entropyCriticality (calculateShannonEntropy b)).1

lemma validateFile_criticalityLevel (b : List Nat) (fn : Option String) (mt : String)
    (ext : ExtParsers) (h : b.length ≠ 0) :
    (validateFile b fn mt ext).criticalityLevel = some (bufferLevel b) := by
  unfold validateFile bufferLevel
  rw [if_neg h]
  rfl

lemma validateFile_riskScore (b : List Nat) (fn : Option String) (mt : String)
    (ext : ExtParsers) (h : b.length ≠ 0) :
    (validateFile b fn mt ext).riskScore = (bufferLevel b : ℝ) := by
  unfold validateFile bufferLevel
  rw [if_neg h]
  rfl

lemma validateFile_isValid (b : List Nat) (fn : Option String) (mt : String)
    (ext : ExtParsers) (h : b.length ≠ 0) :
    (validateFile b fn mt ext).isValid = decide ¬(2 ≤ bufferLevel b) := by
  unfold validateFile bufferLevel
  rw [if_neg h]
  rfl

lemma validateFile_isCorrupted (b : List Nat) (fn : Option String) (mt : String)
    (ext : ExtParsers) (h : b.length ≠ 0) :
    (validateFile b fn mt ext).isCorrupted =
      ((detectCorruption b fn).isCorrupted ||
       decide (0 < (checkFileStructure b fn ext).length) ||
       decide (2 ≤ bufferLevel b)) := by
  unfold validateFile bufferLevel
  rw [if_neg h]
  rfl

lemma validateFile_issues (b : List Nat) (fn : Option String) (mt : String)
    (ext : ExtParsers) (h : b.length ≠ 0) :
    (validateFile b fn mt ext).issues =
      (detectCorruption b fn).issues ++ checkFileStructure b fn ext ++
        [(entropyCriticality (calculateShannonEntropy b)).2] := by
  unfold validateFile
  rw [if_neg h]
  rfl

lemma validateFile_entropy (b : List Nat) (fn : Option String) (mt : String)
    (ext : ExtParsers) (h : b.length ≠ 0) :
    (validateFile b fn mt ext).entropy = calculateShannonEntropy b := by
  unfold validateFile
  rw [if_neg h]
  rfl

/-! ### Branch lemmas for the upload handler -/

lemma uploadHandler_gate1 (f : FileIn) (oracle : Option IdsResult) (ext : ExtParsers)
    (h0 : f.buffer.length ≠ 0) (hsz : ¬100 * 1024 * 1024 < f.buffer.length)
    (fv : FileValidation)
    (hfv : validateFile f.buffer (some f.originalname) f.mimetype ext = fv)
    (hlev : 2 ≤ fv.criticalityLevel.getD 0) :
    uploadHandler (some f) oracle ext =
      ⟨.blocked "corrupted" fv.issues none, [criticalityAlert f fv], []⟩ := by
  simp only [uploadHandler, hfv]
  rw [if_neg h0, if_neg hsz, if_pos hlev]

lemma uploadHandler_gate2_reject (f : FileIn) (oracle : Option IdsResult) (ext : ExtParsers)
    (h0 : f.buffer.length ≠ 0) (hsz : ¬100 * 1024 * 1024 < f.buffer.length)
    (fv : FileValidation)
    (hfv : validateFile f.buffer (some f.originalname) f.mimetype ext = fv)
    (hlev : ¬2 ≤ fv.criticalityLevel.getD 0)
    (hcond : ((fuseIds fv oracle).verdict == "suspicious" || fv.isCorrupted ||
              decide (fv.riskScore > 0.5)) = true) :
    uploadHandler (some f) oracle ext =
      ⟨.blocked (if fv.isCorrupted then "corrupted" else "suspicious") fv.issues
         (some (fuseIds fv oracle)),
       [fusionAlert f fv (fuseIds fv oracle)], []⟩ := by
  simp only [uploadHandler, hfv]
  rw [if_neg h0, if_neg hsz, if_neg hlev, if_pos hcond]

lemma uploadHandler_accept (f : FileIn) (oracle : Option IdsResult) (ext : ExtParsers)
    (h0 : f.buffer.length ≠ 0) (hsz : ¬100 * 1024 * 1024 < f.buffer.length)
    (fv : FileValidation)
    (hfv : validateFile f.buffer (some f.originalname) f.mimetype ext = fv)
    (hlev : ¬2 ≤ fv.criticalityLevel.getD 0)
    (hcond : ((fuseIds fv oracle).verdict == "suspicious" || fv.isCorrupted ||
              decide (fv.riskScore > 0.5)) = false) :
    uploadHandler (some f) oracle ext =
      ⟨.ok f.originalname f.buffer.length (fuseIds fv oracle), [],
       [{ filename := f.originalname, size := f.buffer.length,
          status := "completed", progress := 100,
          encryption_method := "AES-GCM",
          entropy_features := getEntropyFeatures f.buffer,
          ids_result := fuseIds fv oracle }]⟩ := by
  simp only [uploadHandler, hfv]
  rw [if_neg h0, if_neg hsz, if_neg hlev, if_neg (by rw [hcond]; simp)]

/-! ### Fusion lemmas and structure-check evaluations -/

lemma detectCorruption_isCorrupted_iff (b : List Nat) (fn : Option String) :
    (detectCorruption b fn).isCorrupted =
      decide (0 < (detectCorruption b fn).issues.length) := rfl

lemma fuseIds_success_of_low (fv : FileValidation) (r : IdsResult)
    (h : ¬fv.riskScore > 0.3) : fuseIds fv (some r) = r := by
  simp only [fuseIds]
  rw [if_neg h]

lemma fuseIds_failure_of_low (fv : FileValidation) (h : ¬fv.riskScore > 0.3) :
    fuseIds fv none = ⟨0.8, "suspicious", some "IDS service unavailable"⟩ := by
  simp only [fuseIds]
  rw [if_neg h]

lemma structure_text39 (ext : ExtParsers) :
    checkFileStructure bufText39 (some "valid.txt") ext = [] := rfl

lemma structure_range32 (ext : ExtParsers) :
    checkFileStructure (List.range 32) (some "a.txt") ext = [] := rfl

lemma validateImage_jpeg_trunc_ne (b : List Nat) (sharp : SharpResult)
    (h10 : 10 < b.length)
    (htr : ¬(b.getD (b.length - 2) 0 = 0xFF ∧ b.getD (b.length - 1) 0 = 0xD9)) :
    0 < (validateImage b "image/jpeg" sharp).length := by
  unfold validateImage
  rw [if_pos (by decide), if_pos ⟨h10, htr⟩]
  simp

lemma checkFileStructure_jpeg_ne (b : List Nat) (fn : String) (ext : ExtParsers)
    (hfn : fn ≠ "")
    (hjpeg : detectFileType b = some "image/jpeg") (h10 : 10 < b.length)
    (htr : ¬(b.getD (b.length - 2) 0 = 0xFF ∧ b.getD (b.length - 1) 0 = 0xD9)) :
    0 < (checkFileStructure b (some fn) ext).length := by
  simp only [checkFileStructure]
  rw [if_neg hfn, hjpeg]
  simp only [List.length_append]
  rw [if_pos (show ("image/".data.isPrefixOf ("image/jpeg" : String).data) = true from by decide)]
  have := validateImage_jpeg_trunc_ne b ext.sharp h10 htr
  omega

/-! ### Entropy levels of the concrete buffers -/

lemma level_text39 : bufferLevel bufText39 = 0 := by
  unfold bufferLevel
  rw [shannon_bufText39, entropyCriticality_normal logb_39_lower logb_39_upper]

lemma level_range32 : bufferLevel (List.range 32) = 0 := by
  unfold bufferLevel
  rw [shannon_range32, entropyCriticality_normal (by norm_num) (by norm_num)]

lemma level_jpegTrunc : bufferLevel bufJpegTrunc = 0 := by
  unfold bufferLevel
  rw [shannon_bufJpegTrunc, entropyCriticality_normal (by norm_num) (by norm_num)]

/-- A fixed choice of external-parser outcomes for the closed test scenarios. -/
def extErr : ExtParsers := ⟨.err "parse error", .err "parse error", .err "parse error"⟩

/-! ### Full evaluation of the `valid.txt` scenario buffer -/

lemma fvT39_level (ext : ExtParsers) :
    (validateFile bufText39 (some "valid.txt") "text/plain" ext).criticalityLevel = some 0 := by
  rw [validateFile_criticalityLevel _ _ _ _ (by decide), level_text39]

lemma fvT39_risk (ext : ExtParsers) :
    (validateFile bufText39 (some "valid.txt") "text/plain" ext).riskScore = 0 := by
  rw [validateFile_riskScore _ _ _ _ (by decide), level_text39]
  norm_num

lemma fvT39_corr (ext : ExtParsers) :
    (validateFile bufText39 (some "valid.txt") "text/plain" ext).isCorrupted = false := by
  rw [validateFile_isCorrupted _ _ _ _ (by decide),
    detectCorruption_isCorrupted_iff,
    (detectCorruption_eval bufText39 "valid.txt" [] (by decide) (by decide)),
    structure_text39, level_text39]
  simp

lemma eval_text39_accept (ext : ExtParsers) (r : IdsResult)
    (hv : (r.verdict == "suspicious") = false) :
    uploadHandler (some ⟨bufText39, "valid.txt", "text/plain"⟩) (some r) ext =
      ⟨.ok "valid.txt" 39 r, [],
       [{ filename := "valid.txt", size := 39, status := "completed", progress := 100,
          encryption_method := "AES-GCM", entropy_features := getEntropyFeatures bufText39,
          ids_result := r }]⟩ := by
  have hrs3 : ¬(validateFile bufText39 (some "valid.txt") "text/plain" ext).riskScore > 0.3 := by
    rw [fvT39_risk]; norm_num
  have hfuse := fuseIds_success_of_low (validateFile bufText39 (some "valid.txt") "text/plain" ext) r hrs3
  have h := uploadHandler_accept ⟨bufText39, "valid.txt", "text/plain"⟩ (some r) ext
    (by decide) (by decide) _ rfl
    (by rw [fvT39_level]; simp)
    (by
      rw [hfuse, fvT39_corr, hv, fvT39_risk]
      rw [decide_eq_false (by norm_num : ¬(0:ℝ) > 0.5)]
      rfl)
  rw [h, hfuse]
  rfl

lemma eval_text39_oracle_fail (ext : ExtParsers) :
    uploadHandler (some ⟨bufText39, "valid.txt", "text/plain"⟩) none ext =
      ⟨.blocked "suspicious"
         (validateFile bufText39 (some "valid.txt") "text/plain" ext).issues
         (some ⟨0.8, "suspicious", some "IDS service unavailable"⟩),
       [fusionAlert ⟨bufText39, "valid.txt", "text/plain"⟩
          (validateFile bufText39 (some "valid.txt") "text/plain" ext)
          ⟨0.8, "suspicious", some "IDS service unavailable"⟩], []⟩ := by
  have hrs3 : ¬(validateFile bufText39 (some "valid.txt") "text/plain" ext).riskScore > 0.3 := by
    rw [fvT39_risk]; norm_num
  have hfuse := fuseIds_failure_of_low (validateFile bufText39 (some "valid.txt") "text/plain" ext) hrs3
  have h := uploadHandler_gate2_reject ⟨bufText39, "valid.txt", "text/plain"⟩ none ext
    (by decide) (by decide) _ rfl
    (by rw [fvT39_level]; simp)
    (by rw [hfuse]; simp)
  rw [h, hfuse, fvT39_corr]
  rfl

/-! ### Full evaluation of the corrupted-text scenario buffer -/

lemma fvR32_level (ext : ExtParsers) :
    (validateFile (List.range 32) (some "a.txt") "text/plain" ext).criticalityLevel = some 0 := by
  rw [validateFile_criticalityLevel _ _ _ _ (by decide), level_range32]

lemma fvR32_risk (ext : ExtParsers) :
    (validateFile (List.range 32) (some "a.txt") "text/plain" ext).riskScore = 0 := by
  rw [validateFile_riskScore _ _ _ _ (by decide), level_range32]
  norm_num

lemma fvR32_corr (ext : ExtParsers) :
    (validateFile (List.range 32) (some "a.txt") "text/plain" ext).isCorrupted = true := by
  rw [validateFile_isCorrupted _ _ _ _ (by decide),
    detectCorruption_isCorrupted_iff,
    (detectCorruption_eval (List.range 32) "a.txt"
      ["Contains null bytes (possible corruption)"] (by decide) (by decide))]
  simp

lemma eval_range32_reject (ext : ExtParsers) (r : IdsResult) :
    uploadHandler (some ⟨List.range 32, "a.txt", "text/plain"⟩) (some r) ext =
      ⟨.blocked "corrupted"
         (validateFile (List.range 32) (some "a.txt") "text/plain" ext).issues
         (some (fuseIds (validateFile (List.range 32) (some "a.txt") "text/plain" ext) (some r))),
       [fusionAlert ⟨List.range 32, "a.txt", "text/plain"⟩
          (validateFile (List.range 32) (some "a.txt") "text/plain" ext)
          (fuseIds (validateFile (List.range 32) (some "a.txt") "text/plain" ext) (some r))], []⟩ := by
  have h := uploadHandler_gate2_reject ⟨List.range 32, "a.txt", "text/plain"⟩ (some r) ext
    (by decide) (by decide) _ rfl
    (by rw [fvR32_level]; simp)
    (by rw [fvR32_corr]; simp)
  rw [h, fvR32_corr]
  rfl

/-! ### Remaining helper lemmas -/

lemma classify_level_eq (b : List Nat) (fn mt : String) :
    (classifyFileCriticality b fn mt).level = bufferLevel b := rfl

lemma classify_riskScore_eq (b : List Nat) (fn mt : String) :
    (classifyFileCriticality b fn mt).riskScore =
      ((classifyFileCriticality b fn mt).level : ℝ) := rfl

lemma entropyCriticality_le_four (e : ℝ) : (entropyCriticality e).1 ≤ 4 := by
  unfold entropyCriticality
  split_ifs <;> simp

/-! ### Claims -/

/-- C6: for every byte buffer of length 0 the upload handler fails with the
hard empty-input error (a 400, distinct from any classification verdict),
returns no criticality level, creates no alert and persists no artifact. -/
theorem c6_empty_input_hard_error (fn mt : String) (oracle : Option IdsResult)
    (ext : ExtParsers) :
    uploadHandler (some ⟨[], fn, mt⟩) oracle ext =
      ⟨.badRequest "File is empty or invalid", [], []⟩ := rfl

/-- C10: every upload larger than 100MB is rejected with an error before any
risk classification, oracle call, alert creation or artifact persistence; the
result does not depend on the oracle or the parsers and carries no side
effects. -/
theorem c10_size_limit (b : List Nat) (fn mt : String) (oracle : Option IdsResult)
    (ext : ExtParsers) (hb : b ≠ []) (hsz : 100 * 1024 * 1024 < b.length) :
    uploadHandler (some ⟨b, fn, mt⟩) oracle ext =
      ⟨.badRequest "File size exceeds 100MB limit", [], []⟩ := by
  simp only [uploadHandler]
  rw [if_neg (fun h => hb (List.length_eq_zero.mp h)), if_pos hsz]

/-- Witness for C10 at a concrete 100MB+1 buffer. -/
theorem c10_size_limit_witness :
    (List.replicate 104857601 (0 : Nat) ≠ []) ∧
    100 * 1024 * 1024 < (List.replicate 104857601 (0 : Nat)).length ∧
    uploadHandler (some ⟨List.replicate 104857601 0, "big.bin", "application/octet-stream"⟩)
        none extErr = ⟨.badRequest "File size exceeds 100MB limit", [], []⟩ :=
  ⟨List.ne_nil_of_length_pos (by rw [List.length_replicate]; norm_num),
   by rw [List.length_replicate]; norm_num,
   c10_size_limit _ _ _ _ _
     (List.ne_nil_of_length_pos (by rw [List.length_replicate]; norm_num))
     (by rw [List.length_replicate]; norm_num)⟩

/-- C9: handshake validation is accept-once: a first `validate` call on a
PENDING session moves it to VALIDATED or FAILED, and any second call on the
same session fails with `InvalidSessionState`, leaving the session unchanged
and releasing no key material. -/
theorem c9_accept_once (s : HandshakeSession) (o1 o2 : Bool)
    (h : s.state = HState.PENDING) :
    ((validateHandshake s o1).1.state = HState.VALIDATED ∨
     (validateHandshake s o1).1.state = HState.FAILED) ∧
    validateHandshake (validateHandshake s o1).1 o2 =
      ((validateHandshake s o1).1, .failed .InvalidSessionState) := by
  cases o1 <;> simp [validateHandshake, h]

/-- Witness for C9 at a concrete PENDING session. -/
theorem c9_accept_once_witness :
    ((validateHandshake ⟨HState.PENDING, 1, 2, none⟩ false).1.state = HState.VALIDATED ∨
     (validateHandshake ⟨HState.PENDING, 1, 2, none⟩ false).1.state = HState.FAILED) ∧
    validateHandshake (validateHandshake ⟨HState.PENDING, 1, 2, none⟩ false).1 true =
      ((validateHandshake ⟨HState.PENDING, 1, 2, none⟩ false).1,
       .failed .InvalidSessionState) :=
  c9_accept_once _ false true rfl

/-- C7 (amended): the local risk proxy fed into the fusion decision is the
criticality level itself — monotone in the level and bounded by 4, but NOT
normalised into [0,1] (see the counterexample); only the alert record clamps
it with `min(riskScore, 1)`. -/
theorem c7_risk_proxy_amended (b b2 : List Nat) (fn mt fn2 mt2 : String) :
    (classifyFileCriticality b fn mt).riskScore =
      ((classifyFileCriticality b fn mt).level : ℝ) ∧
    (classifyFileCriticality b fn mt).level ≤ 4 ∧
    ((classifyFileCriticality b fn mt).level ≤ (classifyFileCriticality b2 fn2 mt2).level →
      (classifyFileCriticality b fn mt).riskScore ≤
        (classifyFileCriticality b2 fn2 mt2).riskScore) := by
  refine ⟨rfl, entropyCriticality_le_four _, fun h => ?_⟩
  rw [classify_riskScore_eq, classify_riskScore_eq]
  exact_mod_cast h

/-- Witness for C7 (amended) at two concrete buffers. -/
theorem c7_risk_proxy_amended_witness :
    (classifyFileCriticality [7, 7] "payload.bin" "x").level ≤
      (classifyFileCriticality [7, 7] "payload.bin" "x").level ∧
    (classifyFileCriticality [7, 7] "payload.bin" "x").riskScore ≤
      (classifyFileCriticality [7, 7] "payload.bin" "x").riskScore :=
  ⟨le_refl _,
   (c7_risk_proxy_amended [7, 7] [7, 7] "payload.bin" "x" "payload.bin" "x").2.2 (le_refl _)⟩

/-- C7 counterexample: a two-byte constant buffer has entropy 0, level 4, and
its risk proxy is 4 — far outside the claimed [0,1] interval. -/
theorem c7_counterexample :
    (classifyFileCriticality [7, 7] "payload.bin" "x").riskScore = 4 ∧
    ¬(classifyFileCriticality [7, 7] "payload.bin" "x").riskScore ≤ 1 := by
  have he : calculateShannonEntropy [7, 7] = 0 :=
    shannon_of_constant [7, 7] 7 (by decide) (by decide)
  have hl : (classifyFileCriticality [7, 7] "payload.bin" "x").level = 4 := by
    rw [classify_level_eq]
    unfold bufferLevel
    rw [he, entropyCriticality_zero]
  constructor
  · rw [classify_riskScore_eq, hl]; norm_num
  · rw [classify_riskScore_eq, hl]; norm_num

/-- C4: the Shannon entropy of a non-empty buffer is classified into the five
ordered bands mapping directly to the criticality level (0 → 4, (0,4.5) → 3,
[4.5,7.2) → 0, [7.2,7.9) → 2, [7.9,∞) → 4); entropy exactly 4.5 classifies to
level 0 and exactly 7.2 to level 2; an all-identical-bytes buffer has entropy
0 and level 4. -/
theorem c4_entropy_band_classification :
    (∀ (b : List Nat) (fn mt : String), b ≠ [] →
      ((calculateShannonEntropy b = 0 → (classifyFileCriticality b fn mt).level = 4) ∧
       (0 < calculateShannonEntropy b → calculateShannonEntropy b < 4.5 →
          (classifyFileCriticality b fn mt).level = 3) ∧
       (4.5 ≤ calculateShannonEntropy b → calculateShannonEntropy b < 7.2 →
          (classifyFileCriticality b fn mt).level = 0) ∧
       (7.2 ≤ calculateShannonEntropy b → calculateShannonEntropy b < 7.9 →
          (classifyFileCriticality b fn mt).level = 2) ∧
       (7.9 ≤ calculateShannonEntropy b → (classifyFileCriticality b fn mt).level = 4))) ∧
    (entropyCriticality 4.5).1 = 0 ∧
    (entropyCriticality 7.2).1 = 2 ∧
    (∀ (b : List Nat) (fn mt : String) (a : Nat), b ≠ [] → (∀ x ∈ b, x = a) →
      calculateShannonEntropy b = 0 ∧ (classifyFileCriticality b fn mt).level = 4) := by
  refine ⟨fun b fn mt _ => ⟨?_, ?_, ?_, ?_, ?_⟩, ?_, ?_, fun b fn mt a hb hc => ?_⟩
  · intro h
    rw [classify_level_eq]; unfold bufferLevel; rw [h, entropyCriticality_zero]
  · intro h1 h2
    rw [classify_level_eq]; unfold bufferLevel; rw [entropyCriticality_low h1 h2]
  · intro h1 h2
    rw [classify_level_eq]; unfold bufferLevel; rw [entropyCriticality_normal h1 h2]
  · intro h1 h2
    rw [classify_level_eq]; unfold bufferLevel; rw [entropyCriticality_high h1 h2]
  · intro h
    rw [classify_level_eq]; unfold bufferLevel; rw [entropyCriticality_extreme h]
  · rw [entropyCriticality_normal (le_refl _) (by norm_num)]
  · rw [entropyCriticality_high (le_refl _) (by norm_num)]
  · have he := shannon_of_constant b a hb hc
    exact ⟨he, by rw [classify_level_eq]; unfold bufferLevel; rw [he, entropyCriticality_zero]⟩

/-- Witness for C4: one concrete buffer in each entropy band, including a
buffer of entropy exactly 4.5 landing in level 0's band. -/
theorem c4_entropy_band_classification_witness :
    (calculateShannonEntropy [5, 5] = 0 ∧
      (classifyFileCriticality [5, 5] "a.bin" "x").level = 4) ∧
    (classifyFileCriticality [0, 1] "a.bin" "x").level = 3 ∧
    (classifyFileCriticality bufPoint45 "a.bin" "x").level = 0 ∧
    (classifyFileCriticality (List.range 160) "a.bin" "x").level = 2 ∧
    (classifyFileCriticality (List.range 240) "a.bin" "x").level = 4 := by
  refine ⟨c4_entropy_band_classification.2.2.2 [5, 5] "a.bin" "x" 5 (by decide) (by decide),
    ?_, ?_, ?_, ?_⟩
  · exact (c4_entropy_band_classification.1 [0, 1] "a.bin" "x" (by decide)).2.1
      (by rw [shannon_pair]; norm_num) (by rw [shannon_pair]; norm_num)
  · exact (c4_entropy_band_classification.1 bufPoint45 "a.bin" "x" (by decide)).2.2.1
      (by rw [shannon_bufPoint45]) (by rw [shannon_bufPoint45]; norm_num)
  · exact (c4_entropy_band_classification.1 (List.range 160) "a.bin" "x"
        (by simp [List.range_eq_nil])).2.2.2.1
      (by rw [shannon_range160]; exact logb_160_lower)
      (by rw [shannon_range160]; exact logb_160_upper)
  · exact (c4_entropy_band_classification.1 (List.range 240) "a.bin" "x"
        (by simp [List.range_eq_nil])).2.2.2.2
      (by rw [shannon_range240]; exact logb_240_lower)

/-- C5 (amended): every upload call that reaches a fusion verdict triggers
exactly one side effect — on a blocked outcome exactly one alert and no
transfer record, on an accepted outcome exactly one transfer record and no
alert, and on an input-validation error neither; however the two rejection
paths build different alert details: the criticality-gate alert carries the
entropy but no oracle result, while the fusion-gate alert carries the oracle
result but no entropy field. -/
theorem c5_exactly_one_side_effect (f : FileIn) (oracle : Option IdsResult)
    (ext : ExtParsers) :
    ((uploadHandler (some f) oracle ext).response.isBlocked = true →
       (uploadHandler (some f) oracle ext).alerts.length = 1 ∧
       (uploadHandler (some f) oracle ext).transfers = []) ∧
    ((uploadHandler (some f) oracle ext).response.isOk = true →
       (uploadHandler (some f) oracle ext).transfers.length = 1 ∧
       (uploadHandler (some f) oracle ext).alerts = []) ∧
    ((uploadHandler (some f) oracle ext).response.isBadRequest = true →
       (uploadHandler (some f) oracle ext).alerts = [] ∧
       (uploadHandler (some f) oracle ext).transfers = []) ∧
    (∀ (g : FileIn) (fv : FileValidation) (i : IdsResult),
       (criticalityAlert g fv).entropy = some fv.entropy ∧
       (criticalityAlert g fv).ids = none ∧
       (fusionAlert g fv i).ids = some i ∧
       (fusionAlert g fv i).entropy = none) := by
  refine ⟨?_, ?_, ?_, fun g fv i => ⟨rfl, rfl, rfl, rfl⟩⟩ <;>
  · simp only [uploadHandler]
    split_ifs <;>
      simp [UploadResponse.isBlocked, UploadResponse.isOk, UploadResponse.isBadRequest]

/-- Witness for C5 (amended): a concrete accepted upload with one transfer
and no alert, and a concrete blocked upload with one alert and no transfer. -/
theorem c5_exactly_one_side_effect_witness :
    ((uploadHandler (some ⟨bufText39, "valid.txt", "text/plain"⟩)
        (some ⟨0.1, "normal", none⟩) extErr).transfers.length = 1 ∧
     (uploadHandler (some ⟨bufText39, "valid.txt", "text/plain"⟩)
        (some ⟨0.1, "normal", none⟩) extErr).alerts = []) ∧
    ((uploadHandler (some ⟨List.range 32, "a.txt", "text/plain"⟩)
        (some ⟨0.1, "normal", none⟩) extErr).alerts.length = 1 ∧
     (uploadHandler (some ⟨List.range 32, "a.txt", "text/plain"⟩)
        (some ⟨0.1, "normal", none⟩) extErr).transfers = []) := by
  refine ⟨(c5_exactly_one_side_effect ⟨bufText39, "valid.txt", "text/plain"⟩
      (some ⟨0.1, "normal", none⟩) extErr).2.1 ?_,
    (c5_exactly_one_side_effect ⟨List.range 32, "a.txt", "text/plain"⟩
      (some ⟨0.1, "normal", none⟩) extErr).1 ?_⟩
  · rw [eval_text39_accept extErr ⟨0.1, "normal", none⟩ (by decide)]
    rfl
  · rw [eval_range32_reject extErr ⟨0.1, "normal", none⟩]
    rfl

/-- C5 counterexample: the alert created on the fusion-gate rejection does
not carry the entropy value in its details — the claim's required alert
payload (issues, type, entropy, oracle result) is not met on this path. -/
theorem c5_counterexample :
    (uploadHandler (some ⟨List.range 32, "a.txt", "text/plain"⟩)
       (some ⟨0.1, "normal", none⟩) extErr).response.isBlocked = true ∧
    ((uploadHandler (some ⟨List.range 32, "a.txt", "text/plain"⟩)
       (some ⟨0.1, "normal", none⟩) extErr).alerts.map AlertRecord.entropy) = [none] := by
  rw [eval_range32_reject extErr ⟨0.1, "normal", none⟩]
  exact ⟨rfl, rfl⟩

/-- C8: uploading a 39-byte buffer in the normal entropy band with no
corruption or structural findings, filename `valid.txt`, while the oracle
returns `{anomaly_score: 0.1, verdict: "normal"}`, yields the accepted
response, persists exactly one transfer record and creates zero alerts. -/
theorem c8_accept_scenario (b : List Nat) (ext : ExtParsers)
    (hlen : b.length = 39)
    (hb1 : 4.5 ≤ calculateShannonEntropy b) (hb2 : calculateShannonEntropy b < 7.2)
    (hcorr : (detectCorruption b (some "valid.txt")).issues = [])
    (hstruct : checkFileStructure b (some "valid.txt") ext = []) :
    uploadHandler (some ⟨b, "valid.txt", "text/plain"⟩) (some ⟨0.1, "normal", none⟩) ext =
      ⟨.ok "valid.txt" 39 ⟨0.1, "normal", none⟩, [],
       [{ filename := "valid.txt", size := 39, status := "completed", progress := 100,
          encryption_method := "AES-GCM", entropy_features := getEntropyFeatures b,
          ids_result := ⟨0.1, "normal", none⟩ }]⟩ := by
  have h0 : b.length ≠ 0 := by omega
  have hsz : ¬100 * 1024 * 1024 < b.length := by omega
  have hLvl : bufferLevel b = 0 := by
    unfold bufferLevel
    rw [entropyCriticality_normal hb1 hb2]
  have hcl : (validateFile b (some "valid.txt") "text/plain" ext).criticalityLevel = some 0 := by
    rw [validateFile_criticalityLevel _ _ _ _ h0, hLvl]
  have hrs : (validateFile b (some "valid.txt") "text/plain" ext).riskScore = 0 := by
    rw [validateFile_riskScore _ _ _ _ h0, hLvl]
    norm_num
  have hic : (validateFile b (some "valid.txt") "text/plain" ext).isCorrupted = false := by
    rw [validateFile_isCorrupted _ _ _ _ h0, detectCorruption_isCorrupted_iff, hcorr,
      hstruct, hLvl]
    simp
  have hrs3 : ¬(validateFile b (some "valid.txt") "text/plain" ext).riskScore > 0.3 := by
    rw [hrs]
    norm_num
  have hfuse := fuseIds_success_of_low (validateFile b (some "valid.txt") "text/plain" ext)
    ⟨0.1, "normal", none⟩ hrs3
  have h := uploadHandler_accept ⟨b, "valid.txt", "text/plain"⟩ (some ⟨0.1, "normal", none⟩)
    ext h0 hsz _ rfl
    (by rw [hcl]; simp)
    (by
      rw [hfuse, hic, hrs, decide_eq_false (by norm_num : ¬(0 : ℝ) > 0.5)]
      rfl)
  rw [h, hfuse, hlen]

/-- Witness for C8 at the concrete 39-byte plain-text buffer. -/
theorem c8_accept_scenario_witness :
    uploadHandler (some ⟨bufText39, "valid.txt", "text/plain"⟩)
        (some ⟨0.1, "normal", none⟩) extErr =
      ⟨.ok "valid.txt" 39 ⟨0.1, "normal", none⟩, [],
       [{ filename := "valid.txt", size := 39, status := "completed", progress := 100,
          encryption_method := "AES-GCM", entropy_features := getEntropyFeatures bufText39,
          ids_result := ⟨0.1, "normal", none⟩ }]⟩ :=
  c8_accept_scenario bufText39 extErr (by decide)
    (by rw [shannon_bufText39]; exact logb_39_lower)
    (by rw [shannon_bufText39]; exact logb_39_upper)
    (by rw [(detectCorruption_eval bufText39 "valid.txt" [] (by decide) (by decide))])
    (structure_text39 extErr)

/-- C1 (amended): for every buffer detected as JPEG, longer than 10 bytes,
lacking the trailing `FF D9` end marker and uploaded under a non-empty
filename (a falsy filename skips the structural checks entirely), the
validation marks the file corrupted (`isCorrupted = true`) and the upload is
rejected (no transfer is persisted, one alert is created) — but the
criticality level is computed from the entropy band alone and is NOT forced
to 2; structural findings only add issues. -/
theorem c1_structural_failure_amended (b : List Nat) (fn mt : String)
    (ext : ExtParsers) (r : IdsResult) (hfn : fn ≠ "")
    (hjpeg : detectFileType b = some "image/jpeg") (h10 : 10 < b.length)
    (hsz : ¬100 * 1024 * 1024 < b.length)
    (htr : ¬(b.getD (b.length - 2) 0 = 0xFF ∧ b.getD (b.length - 1) 0 = 0xD9)) :
    (validateFile b (some fn) mt ext).isCorrupted = true ∧
    (validateFile b (some fn) mt ext).criticalityLevel = some (bufferLevel b) ∧
    (uploadHandler (some ⟨b, fn, mt⟩) (some r) ext).transfers = [] ∧
    (uploadHandler (some ⟨b, fn, mt⟩) (some r) ext).alerts.length = 1 := by
  have h0 : b.length ≠ 0 := by omega
  have hstr := checkFileStructure_jpeg_ne b fn ext hfn hjpeg h10 htr
  have hic : (validateFile b (some fn) mt ext).isCorrupted = true := by
    rw [validateFile_isCorrupted _ _ _ _ h0, decide_eq_true hstr]
    simp
  have hout : (uploadHandler (some ⟨b, fn, mt⟩) (some r) ext).transfers = [] ∧
      (uploadHandler (some ⟨b, fn, mt⟩) (some r) ext).alerts.length = 1 := by
    by_cases hl : 2 ≤ (validateFile b (some fn) mt ext).criticalityLevel.getD 0
    · rw [uploadHandler_gate1 ⟨b, fn, mt⟩ (some r) ext h0 hsz _ rfl hl]
      exact ⟨rfl, rfl⟩
    · rw [uploadHandler_gate2_reject ⟨b, fn, mt⟩ (some r) ext h0 hsz _ rfl hl
        (by rw [hic]; simp)]
      exact ⟨rfl, rfl⟩
  exact ⟨hic, validateFile_criticalityLevel _ _ _ _ h0, hout.1, hout.2⟩

/-- Witness for C1 (amended) at the concrete truncated JPEG buffer. -/
theorem c1_structural_failure_amended_witness :
    (validateFile bufJpegTrunc (some "x.jpg") "image/jpeg" extErr).isCorrupted = true ∧
    (validateFile bufJpegTrunc (some "x.jpg") "image/jpeg" extErr).criticalityLevel =
      some (bufferLevel bufJpegTrunc) ∧
    (uploadHandler (some ⟨bufJpegTrunc, "x.jpg", "image/jpeg"⟩)
       (some ⟨0.1, "normal", none⟩) extErr).transfers = [] ∧
    (uploadHandler (some ⟨bufJpegTrunc, "x.jpg", "image/jpeg"⟩)
       (some ⟨0.1, "normal", none⟩) extErr).alerts.length = 1 :=
  c1_structural_failure_amended bufJpegTrunc "x.jpg" "image/jpeg" extErr
    ⟨0.1, "normal", none⟩ (by decide) (by decide) (by decide) (by decide) (by decide)

/-- C1 counterexample: a truncated JPEG (signature `FF D8 FF`, no `FF D9`
trailer) whose entropy sits in the normal band is marked corrupted, yet its
`isValid` flag stays true and its criticality level is 0 — refuting
"isStructurallyValid/isValid false AND criticalityLevel ≥ 2" and "never
reported at level 0 or 1". -/
theorem c1_counterexample :
    (validateFile bufJpegTrunc (some "x.jpg") "image/jpeg" extErr).isCorrupted = true ∧
    (validateFile bufJpegTrunc (some "x.jpg") "image/jpeg" extErr).isValid = true ∧
    (validateFile bufJpegTrunc (some "x.jpg") "image/jpeg" extErr).criticalityLevel =
      some 0 := by
  have h0 : bufJpegTrunc.length ≠ 0 := by decide
  have hstr := checkFileStructure_jpeg_ne bufJpegTrunc "x.jpg" extErr
    (by decide) (by decide) (by decide) (by decide)
  refine ⟨?_, ?_, ?_⟩
  · rw [validateFile_isCorrupted _ _ _ _ h0, decide_eq_true hstr]
    simp
  · rw [validateFile_isValid _ _ _ _ h0, level_jpegTrunc]
    rfl
  · rw [validateFile_criticalityLevel _ _ _ _ h0, level_jpegTrunc]

/-- C2 (amended): when the oracle call fails on an upload that reaches the
fusion stage, the failure is absorbed (the caller gets a block decision, not
a fatal error), the fixed floor 0.8 is applied so the recorded score equals
`max(riskScore, 0.8)`, and the failure marker is recorded — but the verdict
is unconditionally forced to "suspicious", so every such upload is rejected. -/
theorem c2_oracle_failure_amended (b : List Nat) (fn mt : String) (ext : ExtParsers)
    (h0 : b.length ≠ 0) (hsz : ¬100 * 1024 * 1024 < b.length)
    (hlev : ¬2 ≤ bufferLevel b) :
    (fuseIds (validateFile b (some fn) mt ext) none).anomaly_score =
      max (validateFile b (some fn) mt ext).riskScore 0.8 ∧
    (fuseIds (validateFile b (some fn) mt ext) none).verdict = "suspicious" ∧
    (fuseIds (validateFile b (some fn) mt ext) none).error =
      some "IDS service unavailable" ∧
    (uploadHandler (some ⟨b, fn, mt⟩) none ext).response.isBlocked = true ∧
    (uploadHandler (some ⟨b, fn, mt⟩) none ext).alerts.length = 1 ∧
    (uploadHandler (some ⟨b, fn, mt⟩) none ext).transfers = [] := by
  have hne1 := entropyCriticality_ne_one (calculateShannonEntropy b)
  have hl0 : bufferLevel b = 0 := by
    unfold bufferLevel at hlev ⊢
    omega
  have hrs : (validateFile b (some fn) mt ext).riskScore = 0 := by
    rw [validateFile_riskScore _ _ _ _ h0, hl0]
    norm_num
  have hrs3 : ¬(validateFile b (some fn) mt ext).riskScore > 0.3 := by
    rw [hrs]; norm_num
  have hfuse := fuseIds_failure_of_low _ hrs3
  have hmax : max (validateFile b (some fn) mt ext).riskScore 0.8 = (0.8 : ℝ) := by
    rw [hrs]
    norm_num
  have hout := uploadHandler_gate2_reject ⟨b, fn, mt⟩ none ext h0 hsz _ rfl
    (by rw [validateFile_criticalityLevel _ _ _ _ h0, hl0]; simp)
    (by rw [hfuse]; simp)
  refine ⟨?_, ?_, ?_, ?_, ?_, ?_⟩
  · rw [hfuse, hmax]
  · rw [hfuse]
  · rw [hfuse]
  · rw [hout]; rfl
  · rw [hout]; rfl
  · rw [hout]

/-- Witness for C2 (amended) at the concrete clean text buffer. -/
theorem c2_oracle_failure_amended_witness :
    (fuseIds (validateFile bufText39 (some "valid.txt") "text/plain" extErr)
       none).anomaly_score =
      max (validateFile bufText39 (some "valid.txt") "text/plain" extErr).riskScore 0.8 ∧
    (fuseIds (validateFile bufText39 (some "valid.txt") "text/plain" extErr)
       none).verdict = "suspicious" ∧
    (fuseIds (validateFile bufText39 (some "valid.txt") "text/plain" extErr)
       none).error = some "IDS service unavailable" ∧
    (uploadHandler (some ⟨bufText39, "valid.txt", "text/plain"⟩) none extErr).response.isBlocked
      = true ∧
    (uploadHandler (some ⟨bufText39, "valid.txt", "text/plain"⟩) none extErr).alerts.length
      = 1 ∧
    (uploadHandler (some ⟨bufText39, "valid.txt", "text/plain"⟩) none extErr).transfers
      = [] :=
  c2_oracle_failure_amended bufText39 "valid.txt" "text/plain" extErr
    (by decide) (by decide) (by rw [level_text39]; omega)

/-- C2 counterexample: the same clean upload is rejected when the oracle is
down, but accepted when a reachable oracle returns the very same score 0.8
with verdict "normal" — the failure acts through the unconditionally forced
"suspicious" verdict, not through the `max(localProxy, floor)` fusion rule. -/
theorem c2_counterexample :
    (uploadHandler (some ⟨bufText39, "valid.txt", "text/plain"⟩)
       none extErr).response.isBlocked = true ∧
    (uploadHandler (some ⟨bufText39, "valid.txt", "text/plain"⟩)
       (some ⟨0.8, "normal", none⟩) extErr).response.isOk = true := by
  constructor
  · rw [eval_text39_oracle_fail extErr]; rfl
  · rw [eval_text39_accept extErr ⟨0.8, "normal", none⟩ (by decide)]; rfl

/-- C3 (amended): for every upload that passes the input checks, the outcome
is a block exactly when the entropy-band criticality level is ≥ 2, or the
fused verdict label is "suspicious", or the validation marked the file
corrupted, or the validation risk score exceeds 0.5; the anomaly score itself
is never compared against an acceptance threshold. -/
theorem c3_reject_condition_amended (b : List Nat) (fn mt : String)
    (ext : ExtParsers) (oracle : Option IdsResult)
    (h0 : b.length ≠ 0) (hsz : ¬100 * 1024 * 1024 < b.length) :
    ((uploadHandler (some ⟨b, fn, mt⟩) oracle ext).response.isBlocked = true ↔
      (2 ≤ bufferLevel b ∨
       (fuseIds (validateFile b (some fn) mt ext) oracle).verdict = "suspicious" ∨
       (validateFile b (some fn) mt ext).isCorrupted = true ∨
       (validateFile b (some fn) mt ext).riskScore > 0.5)) := by
  have hcl := validateFile_criticalityLevel b (some fn) mt ext h0
  by_cases hl : 2 ≤ bufferLevel b
  · rw [uploadHandler_gate1 ⟨b, fn, mt⟩ oracle ext h0 hsz _ rfl
      (by rw [hcl]; simp only [Option.getD_some]; omega)]
    simp only [UploadResponse.isBlocked]
    exact ⟨fun _ => Or.inl hl, fun _ => trivial⟩
  · have hlev : ¬2 ≤ (validateFile b (some fn) mt ext).criticalityLevel.getD 0 := by
      rw [hcl]; simp only [Option.getD_some]; omega
    by_cases hc : ((fuseIds (validateFile b (some fn) mt ext) oracle).verdict == "suspicious" ||
        (validateFile b (some fn) mt ext).isCorrupted ||
        decide ((validateFile b (some fn) mt ext).riskScore > 0.5)) = true
    · rw [uploadHandler_gate2_reject ⟨b, fn, mt⟩ oracle ext h0 hsz _ rfl hlev hc]
      simp only [UploadResponse.isBlocked]
      refine ⟨fun _ => Or.inr ?_, fun _ => trivial⟩
      simpa [Bool.or_eq_true, beq_iff_eq, decide_eq_true_eq, or_assoc] using hc
    · rw [uploadHandler_accept ⟨b, fn, mt⟩ oracle ext h0 hsz _ rfl hlev
        (by simpa using hc)]
      simp only [UploadResponse.isBlocked]
      simp only [Bool.or_eq_true, beq_iff_eq, decide_eq_true_eq, not_or] at hc
      constructor
      · intro hfalse
        exact absurd hfalse (by simp)
      · intro hdisj
        exfalso
        rcases hdisj with h | h | h | h
        · exact hl h
        · exact hc.1.1 h
        · exact hc.1.2 h
        · exact hc.2 h

/-- Witness for C3 (amended) at a concrete rejected upload. -/
theorem c3_reject_condition_amended_witness :
    ((uploadHandler (some ⟨List.range 32, "a.txt", "text/plain"⟩)
        (some ⟨0.1, "normal", none⟩) extErr).response.isBlocked = true ↔
      (2 ≤ bufferLevel (List.range 32) ∨
       (fuseIds (validateFile (List.range 32) (some "a.txt") "text/plain" extErr)
          (some ⟨0.1, "normal", none⟩)).verdict = "suspicious" ∨
       (validateFile (List.range 32) (some "a.txt") "text/plain" extErr).isCorrupted = true ∨
       (validateFile (List.range 32) (some "a.txt") "text/plain" extErr).riskScore > 0.5)) :=
  c3_reject_condition_amended (List.range 32) "a.txt" "text/plain" extErr
    (some ⟨0.1, "normal", none⟩) (by decide) (by decide)

/-- C3 counterexample: an upload is rejected although none of the claim's
three conditions holds — the criticality level is 0, the oracle verdict is
"normal", and the combined score 0.1 is below even the code's own 0.5
cut-off; the rejection comes from the validation's `isCorrupted` flag, a
fourth condition absent from the claim. -/
theorem c3_counterexample :
    (uploadHandler (some ⟨List.range 32, "a.txt", "text/plain"⟩)
       (some ⟨0.1, "normal", none⟩) extErr).response.isBlocked = true ∧
    bufferLevel (List.range 32) = 0 ∧
    (fuseIds (validateFile (List.range 32) (some "a.txt") "text/plain" extErr)
       (some ⟨0.1, "normal", none⟩)).verdict = "normal" ∧
    (fuseIds (validateFile (List.range 32) (some "a.txt") "text/plain" extErr)
       (some ⟨0.1, "normal", none⟩)).anomaly_score = 0.1 ∧
    ¬((0.1 : ℝ) > 0.5) := by
  have hfuse := fuseIds_success_of_low
    (validateFile (List.range 32) (some "a.txt") "text/plain" extErr)
    ⟨0.1, "normal", none⟩ (by rw [fvR32_risk]; norm_num)
  refine ⟨?_, level_range32, ?_, ?_, by norm_num⟩
  · rw [eval_range32_reject extErr ⟨0.1, "normal", none⟩]; rfl
  · rw [hfuse]
  · rw [hfuse]
